import Mathlib

/-!
Verification of the Report2BQ `Scheduler` helpers against their
natural-language specification.

Shallow embedding of:
  * `src/classes/scheduler.py`           (the `Classes` definitions)
  * `src/appengine/classes/scheduler.py` (the `Appengine` definitions)

Python values read by this code are either strings or absent (`None`);
they are modelled by `Option String`.  Python truthiness on such a value
(`None` and `''` are falsy) is `truthy`; `str(x)` is `pyStr` (`str(None)`
is the string `"None"`).  Python dict keys that may be absent are
modelled by an outer `Option`: `none` means the key is missing from the
dict, `some v` means the key is present with value `v`.
-/

/-- Python truthiness of an optional string: `None` and `''` are falsy. -/
def truthy : Option String → Bool
  | none => false
  | some s => s != ""

/-- Python `str()` applied to an optional string (`str(None) = "None"`). -/
def pyStr : Option String → String
  | none => "None"
  | some s => s

/-- The flat `args` dict read by `Scheduler.process` in the `create`
branch.  Each field is a key of the dict; `none` means the key is absent
(so `args.get(k)` is `None`). -/
structure Args where
  action : Option String := none
  email : Option String := none
  project : Option String := none
  force : Option String := none
  infer_schema : Option String := none
  append : Option String := none
  minute : Option String := none
  hour : Option String := none
  sa360_url : Option String := none
  sa360_id : Option String := none
  adh_customer : Option String := none
  adh_query : Option String := none
  api_key : Option String := none
  days : Option String := none
  runner : Option String := none
  profile : Option String := none
  report_id : Option String := none
  description : Option String := none
  timezone : Option String := none
deriving DecidableEq

/-- The `_attrs` message-attribute dict built by `process`.  The first
five keys are always present (`email` and `project` may carry `None`);
the remaining keys follow `dict.update` in the branch taken: `none`
means the key was never inserted, `some v` means the key is present with
value `v` (itself possibly `None`). -/
structure Attrs where
  email : Option String
  project : Option String
  force : String
  infer_schema : String
  append : String
  sa360_url : Option (Option String) := none
  report_id : Option (Option String) := none
  adh_customer : Option (Option String) := none
  adh_query : Option (Option String) := none
  api_key : Option (Option String) := none
  days : Option (Option String) := none
  profile : Option (Option String) := none
  cm_id : Option (Option String) := none
  dv360_id : Option (Option String) := none
  type : Option String := none
deriving DecidableEq

/-- The `_attrs` dict just before the selector branch:
`{'email': _email, 'project': _project, 'force': str(...),
'infer_schema': str(...), 'append': str(...)}`. -/
def baseAttrs (args : Args) : Attrs :=
  { email := args.email, project := args.project,
    force := pyStr args.force,
    infer_schema := pyStr args.infer_schema,
    append := pyStr args.append }

/-- The local variables assigned by the `if/elif/else` selector chain of
`process` under `action == 'create'`: `product`, `_type`, `hour`,
`action`, `topic` and the updated `_attrs`; `report_id` is the value of
`args['report_id']` after the chain (the appengine `sa360_id` branch
overwrites it). -/
structure Derived where
  product : String
  jobType : String
  hour : String
  action : String
  topic : String
  attrs : Attrs
  report_id : Option String
deriving DecidableEq

namespace Classes

/-- Selector chain of `src/classes/scheduler.py`, lines 101-147.
The `else` arm assigns `hour`/`action`/`topic` from the `runner` test
and `product`/`_type`/`_attrs` from the `profile` test; those two
assignments are rendered field by field. -/
def derive (args : Args) : Derived :=
  if truthy args.sa360_url then
    { product := "sa360", jobType := "sa360",
      hour := if truthy args.hour then pyStr args.hour else "3",
      action := "fetch", topic := "report2bq-trigger",
      attrs := { baseAttrs args with
                 sa360_url := some args.sa360_url, type := some "sa360" },
      report_id := args.report_id }
  else if truthy args.adh_customer then
    { product := "adh", jobType := "adh",
      hour := if truthy args.hour then pyStr args.hour else "2",
      action := "run", topic := "report2bq-trigger",
      attrs := { baseAttrs args with
                 adh_customer := some args.adh_customer,
                 adh_query := some args.adh_query,
                 api_key := some args.api_key,
                 days := some args.days, type := some "adh" },
      report_id := args.report_id }
  else
    { product := if truthy args.profile then "cm" else "dv360",
      jobType := if truthy args.profile then "cm" else "dbm",
      hour := if truthy args.runner then
                (if truthy args.hour then pyStr args.hour else "1")
              else "*",
      action := if truthy args.runner then "run" else "fetch",
      topic := if truthy args.runner then "rerport_runner"
               else "report2bq-trigger",
      attrs := if truthy args.profile then
                 { baseAttrs args with
                   profile := some args.profile,
                   cm_id := some args.report_id, type := some "cm" }
               else
                 { baseAttrs args with
                   dv360_id := some args.report_id, type := some "dbm" },
      report_id := args.report_id }

end Classes

namespace Appengine

/-- Selector chain of `src/appengine/classes/scheduler.py`, lines
142-200.  `v` stands for `Type.SA360_RPT.value`, defined in
`classes/report_type.py` which is not under `src/`; no theorem below
depends on its value, so it is passed as a parameter. -/
def derive (v : String) (args : Args) : Derived :=
  if truthy args.sa360_url then
    { product := "sa360", jobType := "sa360",
      hour := if truthy args.hour then pyStr args.hour else "3",
      action := "fetch", topic := "report2bq-trigger",
      attrs := { baseAttrs args with
                 sa360_url := some args.sa360_url, type := some "sa360" },
      report_id := args.report_id }
  else if truthy args.sa360_id then
    { product := v, jobType := v,
      hour := args.hour.getD "*",
      action := "run", topic := "report-runner",
      attrs := { baseAttrs args with
                 report_id := some args.sa360_id, type := some v },
      report_id := args.sa360_id }
  else if truthy args.adh_customer then
    { product := "adh", jobType := "adh",
      hour := if truthy args.hour then pyStr args.hour else "2",
      action := "run", topic := "report2bq-trigger",
      attrs := { baseAttrs args with
                 adh_customer := some args.adh_customer,
                 adh_query := some args.adh_query,
                 api_key := some args.api_key,
                 days := some args.days, type := some "adh" },
      report_id := args.report_id }
  else
    { product := if truthy args.profile then "cm" else "dv360",
      jobType := if truthy args.profile then "cm" else "dv360",
      hour := if truthy args.runner then
                (if truthy args.hour then pyStr args.hour else "1")
              else "*",
      action := if truthy args.runner then "run" else "fetch",
      topic := if truthy args.runner then "report-runner"
               else "report2bq-trigger",
      attrs := if truthy args.profile then
                 { baseAttrs args with
                   profile := some args.profile,
                   cm_id := some args.report_id, type := some "cm" }
               else
                 { baseAttrs args with
                   dv360_id := some args.report_id, type := some "dv360" },
      report_id := args.report_id }

end Appengine

/-- Number of truthy mutually exclusive selector fields among the four
the selector chain of `src/classes/scheduler.py` tests. -/
def selectorCount (args : Args) : Nat :=
  (if truthy args.sa360_url then 1 else 0) +
  (if truthy args.adh_customer then 1 else 0) +
  (if truthy args.runner then 1 else 0) +
  (if truthy args.profile then 1 else 0)

/-- The minute of the cron schedule: the supplied `minute` when truthy,
else `random.randrange(0, 59)`.  The random draw is modelled by an
arbitrary natural `rnd` reduced into `randrange`'s half-open range
`[0, 59)` by `rnd % 59`. -/
def pickMinute (args : Args) (rnd : Nat) : String :=
  if truthy args.minute then pyStr args.minute else toString (rnd % 59)

/-- The transient `job` dict handed to `create_job`.  Keys may be absent
(outer `Option`); `description` and `api_key` may be present carrying
`None` (inner `Option`).  Note the dict built by `process` uses the key
`timeZone` and never the key `timezone`. -/
structure JobArg where
  description : Option (Option String) := none
  timeZone : Option String := none
  api_key : Option (Option String) := none
  name : Option String := none
  schedule : Option String := none
  topic : Option String := none
  attributes : Option Attrs := none
  timezone : Option String := none
deriving DecidableEq

/-- The `job` dict literal built at the end of the `create` branch of
`process` (identical in both files), from the derived branch data `d`:
`name = f"{action}-{product}-{args.get('report_id')}"`,
`schedule = f"{minute} {hour} * * *"`,
`timeZone = args.get('timezone') or 'UTC'`. -/
def buildJob (d : Derived) (args : Args) (rnd : Nat) : JobArg :=
  { description := some args.description,
    timeZone := some (if truthy args.timezone then pyStr args.timezone
                      else "UTC"),
    api_key := some args.api_key,
    name := some (d.action ++ "-" ++ d.product ++ "-" ++ pyStr d.report_id),
    schedule := some (pickMinute args rnd ++ " " ++ d.hour ++ " * * *"),
    topic := some d.topic,
    attributes := some d.attrs }

/-- `create` branch of `Scheduler.process` in `src/classes/scheduler.py`:
the job dict it passes to `create_job`. -/
def Classes.process_create (args : Args) (rnd : Nat) : JobArg :=
  buildJob (Classes.derive args) args rnd

/-- `create` branch of `Scheduler.process` in
`src/appengine/classes/scheduler.py`: the job dict it passes to
`create_job` (`v` is `Type.SA360_RPT.value`, see `Appengine.derive`). -/
def Appengine.process_create (v : String) (args : Args) (rnd : Nat) : JobArg :=
  buildJob (Appengine.derive v args) args rnd

/-- Modelled from the spec: `google.cloud.scheduler`'s
`CloudSchedulerClient.job_path`, called by `create_job`, `get_job`,
`delete_job` and `enable_job`, is library code not under `src/`; the
spec gives its job naming convention
`projects/{project}/locations/{location}/jobs/{job}`. -/
def cloud_scheduler_job_path (project location job : String) : String :=
  "projects/" ++ project ++ "/locations/" ++ location ++ "/jobs/" ++ job

/-- `Scheduler.job_path` classmethod of
`src/appengine/classes/scheduler.py`, lines 364-367. -/
def Appengine.job_path (project location job : String) : String :=
  "projects/" ++ project ++ "/locations/" ++ location ++ "/jobs/" ++ job

/-- The fully-qualified name `delete_job` passes to the remote `delete`
method (identical in both files). -/
def delete_job_name (project location job_id : String) : String :=
  cloud_scheduler_job_path project location job_id

/-- The fully-qualified name `get_job` passes to the remote `get`
method (`src/appengine/classes/scheduler.py`, line 301). -/
def get_job_name (project location job_id : String) : String :=
  cloud_scheduler_job_path project location job_id

/-- The fully-qualified name `enable_job` passes to the remote `resume`
(enable) or `pause` (disable) method
(`src/appengine/classes/scheduler.py`, line 326). -/
def enable_job_name (project location job_id : String) : String :=
  cloud_scheduler_job_path project location job_id

/-- The `pubsubTarget` dict `_target` built by `create_job`.  The
Python default for a missing `attributes` key is `''`; a missing key is
modelled by `none`. -/
structure PubsubTarget where
  topicName : String
  attributes : Option Attrs
deriving DecidableEq

/-- The request `body` dict built by `create_job`. -/
structure Body where
  name : String
  description : Option String
  schedule : String
  timeZone : String
  pubsubTarget : PubsubTarget
deriving DecidableEq

/-- `create_job`'s request body (identical in both files):
`topicName = f"projects/{project}/topics/{job.get('topic', '')}"`,
`name = job_path(project, location, job.get('name', ''))`,
`timeZone = job.get('timezone', '')` — note the lowercase key. -/
def create_job_body (project location : String) (job : JobArg) : Body :=
  { name := cloud_scheduler_job_path project location (job.name.getD ""),
    description := job.description.getD (some ""),
    schedule := job.schedule.getD "",
    timeZone := job.timezone.getD "",
    pubsubTarget :=
      { topicName := "projects/" ++ project ++ "/topics/" ++ job.topic.getD "",
        attributes := job.attributes } }

/-! Remote jobs, pages and the `list_jobs` aggregation/filter. -/

/-- The `attributes` sub-dict of a remote job's `pubsubTarget`; only the
`email` key is read. -/
structure RAttrs where
  email : Option String := none
deriving DecidableEq

/-- The `pubsubTarget` sub-dict of a remote job. -/
structure RTarget where
  attributes : Option RAttrs := none
deriving DecidableEq

/-- A job dict returned by the remote `jobs.list` method; only the keys
`list_jobs` reads are modelled. -/
structure RJob where
  name : String := ""
  pubsubTarget : Option RTarget := none
deriving DecidableEq

/-- The filter key of `list_jobs`:
`j.get('pubsubTarget', {}).get('attributes', {}).get('email', '')`. -/
def jobEmail (j : RJob) : String :=
  ((j.pubsubTarget.getD {}).attributes.getD {}).email.getD ""

/-- The final filtering step of `list_jobs` (identical in both files):
`if email and jobs: jobs = filter(lambda j: ... == email, jobs)`. -/
def filter_jobs (email : Option String) (jobs : List RJob) : List RJob :=
  if truthy email && !jobs.isEmpty then
    jobs.filter (fun j => jobEmail j == pyStr email)
  else jobs

/-- One response of the remote `jobs.list` method: an optional `jobs`
array and an optional `nextPageToken`. -/
structure Page where
  jobs : Option (List RJob) := none
  nextPageToken : Option String := none
deriving DecidableEq

/-- `_jobs['jobs'] if 'jobs' in _jobs else []`. -/
def pageJobs (p : Page) : List RJob := p.jobs.getD []

/-- The `while True` pagination loop of `list_jobs`, run against the
finite sequence `pages` of responses the remote method yields, one per
request: extend with the page's jobs, break if the page has no
`nextPageToken`, else continue with the remaining responses. -/
def list_jobs_pages : List Page → List RJob
  | [] => []
  | p :: ps =>
      pageJobs p ++ (match p.nextPageToken with
        | some _ => list_jobs_pages ps
        | none => [])

/-- The `pageToken` values the loop sends, in request order: the first
request carries `tok` (`None` at the start), each later request carries
the previous page's `nextPageToken`. -/
def list_jobs_tokens (tok : Option String) : List Page → List (Option String)
  | [] => []
  | p :: ps =>
      tok :: (match p.nextPageToken with
        | some t => list_jobs_tokens (some t) ps
        | none => [])

/-! Error handling of the remote-call operations.  An `HttpError`
carries the raw response body `content`; `json.loads` is an external
library function, passed in as `loads`.  A remote call's outcome is an
`Except HttpError` value: `.ok` if the call succeeded, `.error` if the
service answered with an error. -/

/-- The `HttpError` raised by a failed remote call, reduced to the
`content` body the except-clauses decode. -/
structure HttpError where
  content : String
deriving DecidableEq

/-- `delete_job` (identical try/except in both files): on success
return `(True, None)`; on `HttpError` return `(False, json.loads(error.content))`. -/
def delete_job (loads : String → α) : Except HttpError Unit → Bool × Option α
  | .ok _ => (true, none)
  | .error e => (false, some (loads e.content))

/-- `get_job` of `src/appengine/classes/scheduler.py`: on success
return `(True, job)`; on `HttpError` return `(False, json.loads(error.content))`. -/
def get_job (loads : String → α) : Except HttpError β → Bool × (β ⊕ α)
  | .ok job => (true, Sum.inl job)
  | .error e => (false, Sum.inr (loads e.content))

/-- `enable_job` of `src/appengine/classes/scheduler.py`: pick `resume`
or `pause` by the `enable` flag, then the same try/except as
`delete_job`. -/
def enable_job (loads : String → α) (_enable : Bool) :
    Except HttpError Unit → Bool × Option α
  | .ok _ => (true, none)
  | .error e => (false, some (loads e.content))

/-- `create_job` (identical in both files): `request.execute()` is
called with no surrounding try/except, so a failure outcome propagates
uncaught and no pair is returned. -/
def create_job_run : Except HttpError Unit → Except HttpError Unit
  | .ok _ => .ok ()
  | .error e => .error e

/-- `delete_job` run against the stream of outcomes the service would
return to successive calls: it consumes exactly the first outcome and
leaves the rest untouched (`none` if no outcome is available). -/
def delete_job_run (loads : String → α) :
    List (Except HttpError Unit) →
    Option ((Bool × Option α) × List (Except HttpError Unit))
  | [] => none
  | o :: rest => some (delete_job loads o, rest)

/-! Claim theorems. -/

/-- C6: For every project string and every job dict, `create_job` sets
the pub/sub target's `topicName` to exactly
`projects/{project}/topics/{topic}` where `topic` is the job dict's
`topic` entry (`''` when absent). -/
theorem claim_C6 (project location : String) (job : JobArg) :
    (create_job_body project location job).pubsubTarget.topicName =
      "projects/" ++ project ++ "/topics/" ++ job.topic.getD "" := rfl

/-- C7: For every project, location and job identifier, the
fully-qualified job name used by the create, get, delete, pause and
resume operations is exactly
`projects/{project}/locations/{location}/jobs/{job}`; the repository's
own `Scheduler.job_path` produces the same string. -/
theorem claim_C7 (project location job : String) :
    Appengine.job_path project location job =
      "projects/" ++ project ++ "/locations/" ++ location ++ "/jobs/" ++ job ∧
    cloud_scheduler_job_path project location job =
      "projects/" ++ project ++ "/locations/" ++ location ++ "/jobs/" ++ job ∧
    delete_job_name project location job =
      "projects/" ++ project ++ "/locations/" ++ location ++ "/jobs/" ++ job ∧
    get_job_name project location job =
      "projects/" ++ project ++ "/locations/" ++ location ++ "/jobs/" ++ job ∧
    enable_job_name project location job =
      "projects/" ++ project ++ "/locations/" ++ location ++ "/jobs/" ++ job ∧
    ∀ j : JobArg, (create_job_body project location j).name =
      "projects/" ++ project ++ "/locations/" ++ location ++ "/jobs/" ++
        j.name.getD "" :=
  ⟨rfl, rfl, rfl, rfl, rfl, fun _ => rfl⟩

/-- C4 (amended): `delete_job`, `get_job` and `enable_job` catch a
remote-call failure, JSON-decode its error body and return `(False,
decoded payload)`, and return `True` as first component on success;
`create_job`, however, wraps its call in no try/except, so a failure
outcome propagates uncaught instead of being returned as a pair; each
operation issues its remote call exactly once, with no re-issue of a
failed call (the outcomes after the first are left untouched). -/
theorem claim_C4_amended {α β : Type} (loads : String → α) (e : HttpError)
    (b : β) (o : Except HttpError Unit) (rest : List (Except HttpError Unit)) :
    delete_job loads (Except.error e) = (false, some (loads e.content)) ∧
    delete_job loads (Except.ok ()) = (true, none) ∧
    get_job loads (Except.error e : Except HttpError β) =
      (false, Sum.inr (loads e.content)) ∧
    get_job loads (Except.ok b) = (true, Sum.inl b) ∧
    enable_job loads true (Except.error e) = (false, some (loads e.content)) ∧
    enable_job loads false (Except.error e) = (false, some (loads e.content)) ∧
    enable_job loads true (Except.ok ()) = (true, none) ∧
    enable_job loads false (Except.ok ()) = (true, none) ∧
    create_job_run (Except.error e) = Except.error e ∧
    delete_job_run loads (o :: rest) = some (delete_job loads o, rest) :=
  ⟨rfl, rfl, rfl, rfl, rfl, rfl, rfl, rfl, rfl, rfl⟩

/-- C4 (counterexample): the claim says every operation catches a remote
failure and returns a pair whose first component is `False`; `create_job`
does not — at this concrete failing call it re-raises the `HttpError`
unchanged instead of returning any pair. -/
theorem claim_C4_cex :
    create_job_run (Except.error ⟨"boom"⟩) =
      Except.error (⟨"boom"⟩ : HttpError) := rfl

/-- Concrete `create` args used for C5: a `sa360_url` job with an
explicit timezone. -/
def exC5 : Args :=
  { action := some "create", email := some "usr@example.com",
    project := some "proj", sa360_url := some "https://sa360.example",
    report_id := some "rep1", timezone := some "Europe/London",
    minute := some "5", hour := some "4" }

/-- C5: the job specification assembled by `process` does carry the
user-supplied timezone (default `'UTC'`) under its `timeZone` key, but
`create_job` reads the lowercase key `timezone`, which `process` never
sets, so the `timeZone` of the created job's request body is always
`''` — the supplied timezone never reaches the created job.  Evaluated
at the concrete failing input `exC5` (and at `exC5` without a timezone)
for both implementations. -/
theorem claim_C5 :
    (Classes.process_create exC5 0).timeZone = some "Europe/London" ∧
    (Classes.process_create exC5 0).timezone = none ∧
    (create_job_body "proj" "loc" (Classes.process_create exC5 0)).timeZone
      = "" ∧
    (Classes.process_create { exC5 with timezone := none } 0).timeZone =
      some "UTC" ∧
    (create_job_body "proj" "loc"
      (Classes.process_create { exC5 with timezone := none } 0)).timeZone
      = "" ∧
    (Appengine.process_create "sa360_report" exC5 0).timeZone =
      some "Europe/London" ∧
    (create_job_body "proj" "loc"
      (Appengine.process_create "sa360_report" exC5 0)).timeZone = "" ∧
    (Classes.process_create exC5 0).name = some "fetch-sa360-rep1" ∧
    (Classes.process_create exC5 0).schedule = some "5 4 * * *" ∧
    (Classes.process_create exC5 0).topic = some "report2bq-trigger" := by
  decide

/-- C2: for every non-empty email string and non-empty aggregated job
list, `list_jobs` returns exactly the jobs whose
`pubsubTarget.attributes.email` equals that email (a job lacking the
field counts as having email `''`); with an empty (or absent) email, or
an empty aggregated list, the list is returned unchanged. -/
theorem claim_C2 (email : Option String) (jobs : List RJob) :
    (∀ s, email = some s → s ≠ "" → jobs ≠ [] →
       ∀ j, j ∈ filter_jobs email jobs ↔ (j ∈ jobs ∧ jobEmail j = s)) ∧
    (truthy email = false → filter_jobs email jobs = jobs) ∧
    (jobs = [] → filter_jobs email jobs = jobs) := by
  refine ⟨?_, ?_, ?_⟩
  · intro s hs hne hjobs j
    subst hs
    have ht : truthy (some s) = true := by
      simp [truthy, hne]
    have hie : jobs.isEmpty = false := by
      simp [List.isEmpty_iff, hjobs]
    simp [filter_jobs, ht, hie, List.mem_filter, pyStr]
  · intro h
    simp [filter_jobs, h]
  · intro h
    subst h
    simp [filter_jobs]

/-- Concrete jobs for the C2 witness: two jobs with matching email (one
via the full chain), one with a different email, one with no
`pubsubTarget` at all. -/
def exJobs : List RJob :=
  [ { name := "j1", pubsubTarget := some { attributes := some { email := some "a@x" } } },
    { name := "j2", pubsubTarget := some { attributes := some { email := some "b@x" } } },
    { name := "j3", pubsubTarget := none },
    { name := "j4", pubsubTarget := some { attributes := some { email := some "a@x" } } } ]

/-- Witness for C2 at email `a@x` and `exJobs`. -/
theorem claim_C2_witness :
    ((⟨"j1", some ⟨some ⟨some "a@x"⟩⟩⟩ : RJob) ∈ filter_jobs (some "a@x") exJobs
      ↔ ((⟨"j1", some ⟨some ⟨some "a@x"⟩⟩⟩ : RJob) ∈ exJobs ∧
         jobEmail ⟨"j1", some ⟨some ⟨some "a@x"⟩⟩⟩ = "a@x")) ∧
    ((⟨"j2", some ⟨some ⟨some "b@x"⟩⟩⟩ : RJob) ∈ filter_jobs (some "a@x") exJobs
      ↔ ((⟨"j2", some ⟨some ⟨some "b@x"⟩⟩⟩ : RJob) ∈ exJobs ∧
         jobEmail ⟨"j2", some ⟨some ⟨some "b@x"⟩⟩⟩ = "a@x")) :=
  ⟨(claim_C2 (some "a@x") exJobs).1 "a@x" rfl (by decide) (by decide) _,
   (claim_C2 (some "a@x") exJobs).1 "a@x" rfl (by decide) (by decide) _⟩

/-- C10: in the generated cron schedule `{minute} {hour} * * *`, when no
`minute` argument is supplied the minute is an integer in the inclusive
range 0 to 58 (59 is never produced, since `random.randrange(0, 59)`
excludes its upper bound); when a `minute` argument is supplied it is
used verbatim.  Holds for both implementations and every random draw. -/
theorem claim_C10 (v : String) (args : Args) (rnd : Nat) :
    (truthy args.minute = true →
       (Classes.process_create args rnd).schedule =
         some (pyStr args.minute ++ " " ++ (Classes.derive args).hour ++
               " * * *") ∧
       (Appengine.process_create v args rnd).schedule =
         some (pyStr args.minute ++ " " ++ (Appengine.derive v args).hour ++
               " * * *")) ∧
    (truthy args.minute = false →
       ∃ n : Nat, n ≤ 58 ∧
         (Classes.process_create args rnd).schedule =
           some (toString n ++ " " ++ (Classes.derive args).hour ++
                 " * * *") ∧
         (Appengine.process_create v args rnd).schedule =
           some (toString n ++ " " ++ (Appengine.derive v args).hour ++
                 " * * *")) := by
  constructor
  · intro h
    constructor
    · simp [Classes.process_create, buildJob, pickMinute, h]
    · simp [Appengine.process_create, buildJob, pickMinute, h]
  · intro h
    refine ⟨rnd % 59, ?_, ?_, ?_⟩
    · have : rnd % 59 < 59 := Nat.mod_lt rnd (by omega)
      omega
    · simp [Classes.process_create, buildJob, pickMinute, h]
    · simp [Appengine.process_create, buildJob, pickMinute, h]

/-- Concrete args for the C10 witness: `exC5` with no `minute` entry. -/
def exC5NoMinute : Args := { exC5 with minute := none }

/-- Witness for C10 at a concrete args dict without a `minute` entry
and the concrete random draw 200 (`200 % 59 = 23`). -/
theorem claim_C10_witness :
    ∃ n : Nat, n ≤ 58 ∧
      (Classes.process_create exC5NoMinute 200).schedule =
        some (toString n ++ " " ++ (Classes.derive exC5NoMinute).hour ++
              " * * *") ∧
      (Appengine.process_create "sa360_report" exC5NoMinute 200).schedule =
        some (toString n ++ " " ++
              (Appengine.derive "sa360_report" exC5NoMinute).hour ++
              " * * *") :=
  (claim_C10 "sa360_report" exC5NoMinute 200).2 (by decide)

/-- One-step unfolding of the loop: a page with a `nextPageToken`
contributes its jobs and the loop continues. -/
theorem list_jobs_pages_cons_some {p : Page} {t : String}
    (ht : p.nextPageToken = some t) (ps : List Page) :
    list_jobs_pages (p :: ps) = pageJobs p ++ list_jobs_pages ps := by
  simp [list_jobs_pages, ht]

/-- One-step unfolding of the loop: a page without a `nextPageToken`
contributes its jobs and the loop breaks. -/
theorem list_jobs_pages_cons_none {p : Page}
    (hn : p.nextPageToken = none) (ps : List Page) :
    list_jobs_pages (p :: ps) = pageJobs p := by
  simp [list_jobs_pages, hn]

/-- One-step unfolding of the token trace under a continuing page. -/
theorem list_jobs_tokens_cons_some {p : Page} {t : String}
    (ht : p.nextPageToken = some t) (tok : Option String) (ps : List Page) :
    list_jobs_tokens tok (p :: ps) = tok :: list_jobs_tokens (some t) ps := by
  simp [list_jobs_tokens, ht]

/-- Helper: when every page but the last carries a `nextPageToken` and
the last does not, the loop's aggregate is the flattening of all the
pages' jobs arrays. -/
theorem list_jobs_pages_flatten : ∀ (pages : List Page),
    (∀ p ∈ pages.dropLast, (p.nextPageToken).isSome = true) →
    pages.getLast?.bind Page.nextPageToken = none →
    list_jobs_pages pages = (pages.map pageJobs).flatten := by
  intro pages
  induction pages with
  | nil => intro _ _; simp [list_jobs_pages]
  | cons p ps ih =>
    intro hmid hlast
    cases ps with
    | nil =>
      have h : p.nextPageToken = none := by
        simpa using hlast
      simp [list_jobs_pages, h]
    | cons q ps' =>
      have hdl : (p :: q :: ps').dropLast = p :: (q :: ps').dropLast := rfl
      have h1 : (p.nextPageToken).isSome = true := by
        apply hmid
        rw [hdl]
        exact List.mem_cons_self _ _
      obtain ⟨t, ht⟩ := Option.isSome_iff_exists.mp h1
      have ih' := ih
        (fun x hx => hmid x (by rw [hdl]; exact List.mem_cons_of_mem _ hx))
        (by rwa [List.getLast?_cons_cons] at hlast)
      rw [list_jobs_pages_cons_some ht, ih']
      simp

/-- Helper: the loop requests one page per yielded response, the first
with token `tok` and each later one with the preceding page's
`nextPageToken`. -/
theorem list_jobs_tokens_eq : ∀ (pages : List Page) (tok : Option String),
    (∀ p ∈ pages.dropLast, (p.nextPageToken).isSome = true) →
    pages ≠ [] →
    list_jobs_tokens tok pages =
      tok :: pages.dropLast.map Page.nextPageToken := by
  intro pages
  induction pages with
  | nil => intro tok _ h; exact absurd rfl h
  | cons p ps ih =>
    intro tok hmid _
    cases ps with
    | nil =>
      cases h : p.nextPageToken <;> simp [list_jobs_tokens, h]
    | cons q ps' =>
      have hdl : (p :: q :: ps').dropLast = p :: (q :: ps').dropLast := rfl
      have h1 : (p.nextPageToken).isSome = true := by
        apply hmid
        rw [hdl]
        exact List.mem_cons_self _ _
      obtain ⟨t, ht⟩ := Option.isSome_iff_exists.mp h1
      have ih' := ih (some t)
        (fun x hx => hmid x (by rw [hdl]; exact List.mem_cons_of_mem _ hx))
        (by simp)
      rw [list_jobs_tokens_cons_some ht, ih', hdl]
      simp [ht]

/-- Helper: once the loop has seen a page without a `nextPageToken` it
stops; responses the remote could yield beyond that point are never
requested and never contribute. -/
theorem list_jobs_pages_stop : ∀ (pages : List Page),
    (∀ p ∈ pages.dropLast, (p.nextPageToken).isSome = true) →
    pages.getLast?.bind Page.nextPageToken = none →
    pages ≠ [] →
    ∀ extra, list_jobs_pages (pages ++ extra) = list_jobs_pages pages := by
  intro pages
  induction pages with
  | nil => intro _ _ h; exact absurd rfl h
  | cons p ps ih =>
    intro hmid hlast _ extra
    cases ps with
    | nil =>
      have h : p.nextPageToken = none := by
        simpa using hlast
      simp [list_jobs_pages, h]
    | cons q ps' =>
      have hdl : (p :: q :: ps').dropLast = p :: (q :: ps').dropLast := rfl
      have h1 : (p.nextPageToken).isSome = true := by
        apply hmid
        rw [hdl]
        exact List.mem_cons_self _ _
      obtain ⟨t, ht⟩ := Option.isSome_iff_exists.mp h1
      have ih' := ih
        (fun x hx => hmid x (by rw [hdl]; exact List.mem_cons_of_mem _ hx))
        (by rwa [List.getLast?_cons_cons] at hlast)
        (by simp) extra
      rw [List.cons_append, list_jobs_pages_cons_some ht, ih',
          list_jobs_pages_cons_some ht]

/-- C3: for every finite sequence of pages the remote `jobs.list`
method yields (all but the last carrying a `nextPageToken`, the last
without one), `list_jobs` requests the pages starting with a `None`
token and passing each page's `nextPageToken` to the following request,
stops at the first page without a `nextPageToken` (yielded pages beyond
it would never be requested), and the pre-filter result is the
concatenation of the `jobs` arrays of all fetched pages in order, a
page without a `jobs` key contributing nothing. -/
theorem claim_C3 (pages : List Page) (hne : pages ≠ [])
    (hmid : ∀ p ∈ pages.dropLast, (p.nextPageToken).isSome = true)
    (hlast : pages.getLast?.bind Page.nextPageToken = none) :
    list_jobs_pages pages = (pages.map pageJobs).flatten ∧
    list_jobs_tokens none pages =
      none :: pages.dropLast.map Page.nextPageToken ∧
    ∀ extra, list_jobs_pages (pages ++ extra) = list_jobs_pages pages :=
  ⟨list_jobs_pages_flatten pages hmid hlast,
   list_jobs_tokens_eq pages none hmid hne,
   list_jobs_pages_stop pages hmid hlast hne⟩

/-- Concrete three-page sequence for the C3 witness: a middle page
without a `jobs` key, tokens `t1`, `t2` on the first two pages, none on
the last. -/
def exPages : List Page :=
  [ { jobs := some [{ name := "a" }, { name := "b" }],
      nextPageToken := some "t1" },
    { nextPageToken := some "t2" },
    { jobs := some [{ name := "c" }] } ]

/-- Witness for C3 at `exPages` (with one never-requested extra page). -/
theorem claim_C3_witness :
    list_jobs_pages exPages = (exPages.map pageJobs).flatten ∧
    list_jobs_tokens none exPages =
      none :: exPages.dropLast.map Page.nextPageToken ∧
    list_jobs_pages (exPages ++ [{ jobs := some [{ name := "z" }] }]) =
      list_jobs_pages exPages := by
  have h := claim_C3 exPages (by decide) (by decide) (by decide)
  exact ⟨h.1, h.2.1, h.2.2 _⟩

/-- C1: for every `create` args dict containing exactly one truthy
selector among `sa360_url`, `adh_customer`, `runner` and `profile`
(the appengine file's additional mutually exclusive selector `sa360_id`
being absent), both implementations derive the documented mapping:
`sa360_url` gives topic `report2bq-trigger`, action `fetch`, hour
defaulting to `3` and attributes carrying `sa360_url` and type `sa360`;
`adh_customer` gives topic `report2bq-trigger`, action `run`, hour
defaulting to `2` and attributes carrying `adh_customer`, `adh_query`,
`api_key`, `days` and type `adh`; `runner` gives action `run` and hour
defaulting to `1`; otherwise action is `fetch`, topic is
`report2bq-trigger` and hour is `*`; and in the non-SA360/ADH case the
attributes carry `profile` and `cm_id` with type `cm` when `profile` is
truthy, else `dv360_id` with the dv360 type (spelled `dbm` in
`src/classes` and `dv360` in `src/appengine`). -/
theorem claim_C1 (v : String) (args : Args)
    (hid : truthy args.sa360_id = false)
    (hone : selectorCount args = 1) :
    (truthy args.sa360_url = true →
       ((Classes.derive args).topic = "report2bq-trigger" ∧
        (Classes.derive args).action = "fetch" ∧
        (Classes.derive args).hour =
          (if truthy args.hour then pyStr args.hour else "3") ∧
        (Classes.derive args).attrs.sa360_url = some args.sa360_url ∧
        (Classes.derive args).attrs.type = some "sa360") ∧
       ((Appengine.derive v args).topic = "report2bq-trigger" ∧
        (Appengine.derive v args).action = "fetch" ∧
        (Appengine.derive v args).hour =
          (if truthy args.hour then pyStr args.hour else "3") ∧
        (Appengine.derive v args).attrs.sa360_url = some args.sa360_url ∧
        (Appengine.derive v args).attrs.type = some "sa360")) ∧
    (truthy args.adh_customer = true →
       ((Classes.derive args).topic = "report2bq-trigger" ∧
        (Classes.derive args).action = "run" ∧
        (Classes.derive args).hour =
          (if truthy args.hour then pyStr args.hour else "2") ∧
        (Classes.derive args).attrs.adh_customer = some args.adh_customer ∧
        (Classes.derive args).attrs.adh_query = some args.adh_query ∧
        (Classes.derive args).attrs.api_key = some args.api_key ∧
        (Classes.derive args).attrs.days = some args.days ∧
        (Classes.derive args).attrs.type = some "adh") ∧
       ((Appengine.derive v args).topic = "report2bq-trigger" ∧
        (Appengine.derive v args).action = "run" ∧
        (Appengine.derive v args).hour =
          (if truthy args.hour then pyStr args.hour else "2") ∧
        (Appengine.derive v args).attrs.adh_customer = some args.adh_customer ∧
        (Appengine.derive v args).attrs.adh_query = some args.adh_query ∧
        (Appengine.derive v args).attrs.api_key = some args.api_key ∧
        (Appengine.derive v args).attrs.days = some args.days ∧
        (Appengine.derive v args).attrs.type = some "adh")) ∧
    (truthy args.runner = true →
       ((Classes.derive args).action = "run" ∧
        (Classes.derive args).hour =
          (if truthy args.hour then pyStr args.hour else "1") ∧
        (Appengine.derive v args).action = "run" ∧
        (Appengine.derive v args).hour =
          (if truthy args.hour then pyStr args.hour else "1"))) ∧
    (truthy args.sa360_url = false → truthy args.adh_customer = false →
     truthy args.runner = false →
       ((Classes.derive args).action = "fetch" ∧
        (Classes.derive args).topic = "report2bq-trigger" ∧
        (Classes.derive args).hour = "*" ∧
        (Appengine.derive v args).action = "fetch" ∧
        (Appengine.derive v args).topic = "report2bq-trigger" ∧
        (Appengine.derive v args).hour = "*")) ∧
    (truthy args.sa360_url = false → truthy args.adh_customer = false →
       ((truthy args.profile = true →
           ((Classes.derive args).attrs.profile = some args.profile ∧
            (Classes.derive args).attrs.cm_id = some args.report_id ∧
            (Classes.derive args).attrs.type = some "cm" ∧
            (Appengine.derive v args).attrs.profile = some args.profile ∧
            (Appengine.derive v args).attrs.cm_id = some args.report_id ∧
            (Appengine.derive v args).attrs.type = some "cm")) ∧
        (truthy args.profile = false →
           ((Classes.derive args).attrs.dv360_id = some args.report_id ∧
            (Classes.derive args).attrs.type = some "dbm" ∧
            (Appengine.derive v args).attrs.dv360_id = some args.report_id ∧
            (Appengine.derive v args).attrs.type = some "dv360")))) := by
  cases hs : truthy args.sa360_url <;>
  cases ha : truthy args.adh_customer <;>
  cases hr : truthy args.runner <;>
  cases hp : truthy args.profile <;>
  simp [selectorCount, hs, ha, hr, hp] at hone <;>
  simp [Classes.derive, Appengine.derive, hs, ha, hr, hp, hid]

/-- Concrete args for the C1 witness: an ADH job. -/
def exC1 : Args :=
  { action := some "create", email := some "usr@example.com",
    project := some "proj", adh_customer := some "cust1",
    adh_query := some "q1", api_key := some "key1", days := some "60",
    report_id := some "r9" }

/-- Witness for C1 at the concrete ADH args `exC1`. -/
theorem claim_C1_witness :
    truthy exC1.sa360_id = false ∧ selectorCount exC1 = 1 ∧
    (((Classes.derive exC1).topic = "report2bq-trigger" ∧
      (Classes.derive exC1).action = "run" ∧
      (Classes.derive exC1).hour =
        (if truthy exC1.hour then pyStr exC1.hour else "2") ∧
      (Classes.derive exC1).attrs.adh_customer = some exC1.adh_customer ∧
      (Classes.derive exC1).attrs.adh_query = some exC1.adh_query ∧
      (Classes.derive exC1).attrs.api_key = some exC1.api_key ∧
      (Classes.derive exC1).attrs.days = some exC1.days ∧
      (Classes.derive exC1).attrs.type = some "adh") ∧
     ((Appengine.derive "sa360_report" exC1).topic = "report2bq-trigger" ∧
      (Appengine.derive "sa360_report" exC1).action = "run" ∧
      (Appengine.derive "sa360_report" exC1).hour =
        (if truthy exC1.hour then pyStr exC1.hour else "2") ∧
      (Appengine.derive "sa360_report" exC1).attrs.adh_customer =
        some exC1.adh_customer ∧
      (Appengine.derive "sa360_report" exC1).attrs.adh_query =
        some exC1.adh_query ∧
      (Appengine.derive "sa360_report" exC1).attrs.api_key =
        some exC1.api_key ∧
      (Appengine.derive "sa360_report" exC1).attrs.days = some exC1.days ∧
      (Appengine.derive "sa360_report" exC1).attrs.type = some "adh")) :=
  ⟨by decide, by decide,
   (claim_C1 "sa360_report" exC1 (by decide) (by decide)).2.1 (by decide)⟩

/-- Concrete args on which the two implementations disagree: a plain
`runner` job (no sa360/adh/profile selector). -/
def exC8 : Args :=
  { action := some "create", email := some "e@x", project := some "p",
    runner := some "1", report_id := some "42" }

/-- C8 (counterexample): at `exC8` the two implementations differ both
in the derived topic (`rerport_runner` vs `report-runner`) and in the
attribute mapping (type `dbm` vs `dv360`), so they do not always derive
the same `(topic, action, hour, type)` tuple and attribute mapping. -/
theorem claim_C8_cex :
    ¬ ((Classes.derive exC8).topic =
         (Appengine.derive "sa360_report" exC8).topic ∧
       (Classes.derive exC8).attrs =
         (Appengine.derive "sa360_report" exC8).attrs) := by
  decide

/-- C8 (amended): for every `create` args dict in which the appengine
file's extra `sa360_id` selector is not truthy, the two implementations
derive the same action, hour, product and report id; they derive the
same attribute mapping and type whenever the `sa360_url`, `adh_customer`
or `profile` branch is taken; the same topic except in the `runner`
branch, where the topics are `rerport_runner` (src/classes) and
`report-runner` (src/appengine); and in the dv360 branch the types are
`dbm` (src/classes) and `dv360` (src/appengine), the attribute mappings
agreeing on every key but `type`. -/
theorem claim_C8_amended (v : String) (args : Args)
    (hid : truthy args.sa360_id = false) :
    (Classes.derive args).action = (Appengine.derive v args).action ∧
    (Classes.derive args).hour = (Appengine.derive v args).hour ∧
    (Classes.derive args).product = (Appengine.derive v args).product ∧
    (Classes.derive args).report_id = (Appengine.derive v args).report_id ∧
    (truthy args.sa360_url = true ∨ truthy args.adh_customer = true ∨
     truthy args.profile = true →
       (Classes.derive args).attrs = (Appengine.derive v args).attrs ∧
       (Classes.derive args).jobType = (Appengine.derive v args).jobType) ∧
    (truthy args.sa360_url = true ∨ truthy args.adh_customer = true ∨
     truthy args.runner = false →
       (Classes.derive args).topic = (Appengine.derive v args).topic) ∧
    (truthy args.sa360_url = false → truthy args.adh_customer = false →
     truthy args.runner = true →
       (Classes.derive args).topic = "rerport_runner" ∧
       (Appengine.derive v args).topic = "report-runner") ∧
    (truthy args.sa360_url = false → truthy args.adh_customer = false →
     truthy args.profile = false →
       (Classes.derive args).jobType = "dbm" ∧
       (Appengine.derive v args).jobType = "dv360" ∧
       { (Classes.derive args).attrs with type := some "dv360" } =
         (Appengine.derive v args).attrs) := by
  cases hs : truthy args.sa360_url <;>
  cases ha : truthy args.adh_customer <;>
  cases hr : truthy args.runner <;>
  cases hp : truthy args.profile <;>
  simp [Classes.derive, Appengine.derive, baseAttrs, hs, ha, hr, hp, hid]

/-- Witness for C8 (amended) at `exC8`. -/
theorem claim_C8_witness :
    truthy exC8.sa360_id = false ∧
    (Classes.derive exC8).action =
      (Appengine.derive "sa360_report" exC8).action ∧
    (Classes.derive exC8).hour =
      (Appengine.derive "sa360_report" exC8).hour :=
  ⟨by decide, (claim_C8_amended "sa360_report" exC8 (by decide)).1,
   (claim_C8_amended "sa360_report" exC8 (by decide)).2.1⟩

/-- Erasing the selectors the claim ranks after `sa360_url`. -/
def eraseAfterSa360 (args : Args) : Args :=
  { args with adh_customer := none, runner := none, profile := none }

/-- Erasing the selectors the claim ranks after `adh_customer`. -/
def eraseRunnerProfile (args : Args) : Args :=
  { args with runner := none, profile := none }

/-- C9: the selector precedence is fixed: a truthy `sa360_url` wins over
`adh_customer`, `runner` and `profile` — the derivation is unchanged if
those later selectors are erased, and the sa360 branch's attributes
carry no adh/cm/dv360 key; with `sa360_url` falsy a truthy
`adh_customer` wins over `runner` and `profile` in the same sense.
Holds for both implementations (the appengine file's extra `sa360_id`
selector not being truthy). -/
theorem claim_C9 (v : String) (args : Args)
    (hid : truthy args.sa360_id = false) :
    (truthy args.sa360_url = true →
       Classes.derive args = Classes.derive (eraseAfterSa360 args) ∧
       Appengine.derive v args = Appengine.derive v (eraseAfterSa360 args) ∧
       (Classes.derive args).attrs.adh_customer = none ∧
       (Classes.derive args).attrs.adh_query = none ∧
       (Classes.derive args).attrs.profile = none ∧
       (Classes.derive args).attrs.cm_id = none ∧
       (Classes.derive args).attrs.dv360_id = none ∧
       (Classes.derive args).attrs.type = some "sa360" ∧
       (Appengine.derive v args).attrs.adh_customer = none ∧
       (Appengine.derive v args).attrs.adh_query = none ∧
       (Appengine.derive v args).attrs.profile = none ∧
       (Appengine.derive v args).attrs.cm_id = none ∧
       (Appengine.derive v args).attrs.dv360_id = none ∧
       (Appengine.derive v args).attrs.type = some "sa360") ∧
    (truthy args.sa360_url = false → truthy args.adh_customer = true →
       Classes.derive args = Classes.derive (eraseRunnerProfile args) ∧
       Appengine.derive v args = Appengine.derive v (eraseRunnerProfile args) ∧
       (Classes.derive args).attrs.sa360_url = none ∧
       (Classes.derive args).attrs.profile = none ∧
       (Classes.derive args).attrs.cm_id = none ∧
       (Classes.derive args).attrs.dv360_id = none ∧
       (Classes.derive args).attrs.type = some "adh" ∧
       (Appengine.derive v args).attrs.sa360_url = none ∧
       (Appengine.derive v args).attrs.profile = none ∧
       (Appengine.derive v args).attrs.cm_id = none ∧
       (Appengine.derive v args).attrs.dv360_id = none ∧
       (Appengine.derive v args).attrs.type = some "adh") := by
  constructor
  · intro hs
    simp [Classes.derive, Appengine.derive, eraseAfterSa360, baseAttrs, hs]
  · intro hs ha
    simp [Classes.derive, Appengine.derive, eraseRunnerProfile, baseAttrs,
          hs, ha, hid]

/-- Concrete args for the C9 witness: every selector supplied at once. -/
def exC9 : Args :=
  { action := some "create", email := some "e@x", project := some "p",
    sa360_url := some "https://u", adh_customer := some "c",
    runner := some "y", profile := some "pr", report_id := some "7" }

/-- Witness for C9 at `exC9`: with all selectors supplied, erasing the
ones ranked after `sa360_url` changes nothing. -/
theorem claim_C9_witness :
    truthy exC9.sa360_id = false ∧
    Classes.derive exC9 = Classes.derive (eraseAfterSa360 exC9) ∧
    Appengine.derive "sa360_report" exC9 =
      Appengine.derive "sa360_report" (eraseAfterSa360 exC9) :=
  ⟨by decide,
   ((claim_C9 "sa360_report" exC9 (by decide)).1 (by decide)).1,
   ((claim_C9 "sa360_report" exC9 (by decide)).1 (by decide)).2.1⟩
